import Mathlib

/-!
Verification development for the API Gateway invocation-context and router
slice (localstack/services/apigateway: context.py, router_asf.py,
provider_asf.py).

The Python code is shallowly embedded: dictionaries become association
lists, Python `None` becomes `Option.none`, a raised exception becomes an
`Except.error` or `Option.none` result (noted at each definition), and the
in-place mutation performed by the accessors becomes explicit state
passing.  Every definition is translated from the source files; the few
collaborator utilities that live outside the excerpt (for instance
`parse_query_string`) carry a doc comment saying so.
-/

/-! ## Association-list primitives (model of Python dict operations) -/

/-- A Python value appearing inside the `auth_info` dictionary: either a
string or a nested dictionary. -/
inductive PyVal where
  | str (s : String)
  | obj (m : List (String × PyVal))

/-- Model of `dict.get`: the value stored at the first occurrence of the
key, if any. -/
def assocGet (m : List (String × PyVal)) (k : String) : Option PyVal :=
  match m with
  | [] => none
  | (k0, v0) :: t => if k0 = k then some v0 else assocGet t k

/-- Model of `dict[k] = v`: replace the value at the first occurrence of
the key, or append the pair when the key is absent. -/
def assocSet (m : List (String × PyVal)) (k : String) (v : PyVal) :
    List (String × PyVal) :=
  match m with
  | [] => [(k, v)]
  | (k0, v0) :: t => if k0 = k then (k0, v) :: t else (k0, v0) :: assocSet t k v

/-- Python truthiness for the values stored in `auth_info`: an empty
string and an empty dict are falsy. -/
def pyTruthyVal : PyVal → Bool
  | .str s => !(s == "")
  | .obj m => !m.isEmpty

/-- Python truthiness of an `Optional[str]`: `None` and the empty string
are falsy. -/
def pyTruthyStr : Option String → Bool
  | none => false
  | some s => !(s == "")

/-! ## String helpers mirroring the Python string operations used -/

/-- Whether the second list is a prefix of the first. -/
def listStartsWith : List Char → List Char → Bool
  | _, [] => true
  | [], _ :: _ => false
  | a :: as, b :: bs => a == b && listStartsWith as bs

/-- Model of `s.startswith(pre)`. -/
def pyStartsWith (s pre : String) : Bool :=
  listStartsWith s.toList pre.toList

/-- Worker for `pySplitOn`; the fuel argument keeps the recursion
structural (it is always at least the length of the input, so the
zero-fuel branch is unreachable). -/
def splitOnCharsAux (sep : List Char) : Nat → List Char → List Char →
    List (List Char)
  | _, [], acc => [acc]
  | 0, l, acc => [acc ++ l]
  | fuel + 1, c :: rest, acc =>
    if listStartsWith (c :: rest) sep then
      acc :: splitOnCharsAux sep fuel ((c :: rest).drop sep.length) []
    else splitOnCharsAux sep fuel rest (acc ++ [c])

/-- Model of Python `s.split(sep)` for a non-empty separator: split on
every non-overlapping occurrence, left to right; the result is never
empty. -/
def pySplitOn (s sep : String) : List String :=
  (splitOnCharsAux sep.toList (s.toList.length + 1) s.toList []).map String.mk

/-- Model of the Python expression `s.partition(sep)[2]`: everything after
the first occurrence of `sep`, or the empty string when `sep` is absent. -/
def partitionAfter (s sep : String) : String :=
  match pySplitOn s sep with
  | [] => ""
  | [_] => ""
  | _ :: rest => String.intercalate sep rest

/-- Model of the Python expression `s.strip("/")`: drop the slashes at
both ends of the string. -/
def stripSlashes (s : String) : String :=
  String.mk (((s.toList.dropWhile (fun c => c == '/')).reverse.dropWhile
    (fun c => c == '/')).reverse)

/-- Modelled from the spec: `parse_query_string` from
`localstack.utils.aws.aws_responses` (not part of the excerpt).  Splits a
raw query string on `&`, then each nonempty component on its first `=`;
a component without `=` maps to the empty value. -/
def parse_query_string (qs : String) : List (String × String) :=
  ((pySplitOn qs "&").filter (fun c => !(c == ""))).map (fun kv =>
    match pySplitOn kv "=" with
    | [] => ("", "")
    | [k] => (k, "")
    | k :: rest => (k, String.intercalate "=" rest))

/-! ## UTF-8 decoding (model of `bytes.decode` as used by `to_str`) -/

/-- Strict UTF-8 decoding of a byte list into a list of code points,
exactly as CPython `bytes.decode("utf-8")`: rejects overlong encodings,
surrogates, values above U+10FFFF and truncated sequences.  `none` models
the raised `UnicodeDecodeError`. -/
def utf8DecodeCodepoints : List Nat → Option (List Nat)
  | [] => some []
  | b :: rest =>
    if b < 0x80 then
      (utf8DecodeCodepoints rest).map (fun cs => b :: cs)
    else if b < 0xC2 then none
    else if b ≤ 0xDF then
      match rest with
      | c :: r2 =>
        if 0x80 ≤ c ∧ c ≤ 0xBF then
          (utf8DecodeCodepoints r2).map (fun cs => ((b - 0xC0) * 64 + (c - 0x80)) :: cs)
        else none
      | _ => none
    else if b ≤ 0xEF then
      match rest with
      | c :: d :: r2 =>
        let lo := if b = 0xE0 then 0xA0 else 0x80
        let hi := if b = 0xED then 0x9F else 0xBF
        if lo ≤ c ∧ c ≤ hi ∧ 0x80 ≤ d ∧ d ≤ 0xBF then
          (utf8DecodeCodepoints r2).map
            (fun cs => ((b - 0xE0) * 4096 + (c - 0x80) * 64 + (d - 0x80)) :: cs)
        else none
      | _ => none
    else if b ≤ 0xF4 then
      match rest with
      | c :: d :: e :: r2 =>
        let lo := if b = 0xF0 then 0x90 else 0x80
        let hi := if b = 0xF4 then 0x8F else 0xBF
        if lo ≤ c ∧ c ≤ hi ∧ 0x80 ≤ d ∧ d ≤ 0xBF ∧ 0x80 ≤ e ∧ e ≤ 0xBF then
          (utf8DecodeCodepoints r2).map
            (fun cs =>
              ((b - 0xF0) * 262144 + (c - 0x80) * 4096 + (d - 0x80) * 64 + (e - 0x80)) :: cs)
        else none
      | _ => none
    else none

/-- Decode a byte list to a string; `none` models `UnicodeDecodeError`. -/
def utf8Decode (bs : List Nat) : Option String :=
  (utf8DecodeCodepoints bs).map (fun cs => String.mk (cs.map Char.ofNat))

/-! ## Base64 (model of `base64.b64encode`) -/

/-- The standard base64 alphabet character for a 6-bit value. -/
def base64Digit (n : Nat) : Char :=
  ("ABCDEFGHIJKLMNOPQRSTUVWXYZabcdefghijklmnopqrstuvwxyz0123456789+/".toList).getD n 'A'

/-- Model of `base64.b64encode` (result read back as a string, as done by
`to_str` on the ASCII bytes it returns). -/
def base64Encode : List Nat → String
  | a :: b :: c :: rest =>
    String.mk [base64Digit (a / 4), base64Digit ((a % 4) * 16 + b / 16),
      base64Digit ((b % 16) * 4 + c / 64), base64Digit (c % 64)] ++ base64Encode rest
  | [a, b] =>
    String.mk [base64Digit (a / 4), base64Digit ((a % 4) * 16 + b / 16),
      base64Digit ((b % 16) * 4)] ++ "="
  | [a] =>
    String.mk [base64Digit (a / 4), base64Digit ((a % 4) * 16)] ++ "=="
  | [] => ""

/-! ## JSON values (model of the payload dicts/lists and `json.dumps`) -/

/-- A JSON value, modelling the structured bodies that may appear as
`request.data`. -/
inductive Json where
  | null
  | bool (b : Bool)
  | num (n : Int)
  | str (s : String)
  | arr (l : List Json)
  | obj (l : List (String × Json))

/-- Escape a string the way `json.dumps` quotes it (model of the Python
stdlib function, external to the repository; escaping is restricted to
the quote and backslash characters, which covers the payloads in scope). -/
def jsonQuote (s : String) : String :=
  "\"" ++ String.mk (s.toList.flatMap (fun c =>
    if c == '"' ∨ c == '\\' then ['\\', c] else [c])) ++ "\""

mutual

/-- Model of Python `json.dumps` with its default separators. -/
def Json.dumps : Json → String
  | .null => "null"
  | .bool true => "true"
  | .bool false => "false"
  | .num n => toString n
  | .str s => jsonQuote s
  | .arr l => "[" ++ Json.dumpsList l ++ "]"
  | .obj l => "\x7b" ++ Json.dumpsObj l ++ "\x7d"

/-- Comma-joined serialization of a JSON array body. -/
def Json.dumpsList : List Json → String
  | [] => ""
  | [x] => Json.dumps x
  | x :: xs => Json.dumps x ++ ", " ++ Json.dumpsList xs

/-- Comma-joined serialization of a JSON object body. -/
def Json.dumpsObj : List (String × Json) → String
  | [] => ""
  | [(k, v)] => jsonQuote k ++ ": " ++ Json.dumps v
  | (k, v) :: xs => jsonQuote k ++ ": " ++ Json.dumps v ++ ", " ++ Json.dumpsObj xs

end

/-! ## Requests, headers and the invocation payload -/

/-- Type of `request.data` (`InvocationPayload = Union[Dict, str, bytes]`
in context.py; a JSON list is included since the accessors test for
`(dict, list)`). -/
inductive Payload where
  | dict (d : List (String × Json))
  | list (l : List Json)
  | str (s : String)
  | bytes (bs : List Nat)

/-- HTTP headers as a list of key/value pairs.  Lookups are modelled as
exact-match on the first occurrence; the code always reads a header under
the same spelling it was written with, so werkzeug case-insensitivity is
not needed by any claim. -/
def Headers := List (String × String)

/-- Model of `headers.get(k)`: first value stored under the key. -/
def headerGet (h : Headers) (k : String) : Option String :=
  match h with
  | [] => none
  | (k0, v0) :: t => if k0 = k then some v0 else headerGet t k

/-- Model of `headers.getlist(k)`: every value stored under the key. -/
def headerGetList (h : Headers) (k : String) : List String :=
  match h with
  | [] => []
  | (k0, v0) :: t => if k0 = k then v0 :: headerGetList t k else headerGetList t k

/-- Model of `headers[k] = v` on werkzeug headers: drop every existing
entry for the key and append the new one. -/
def headerSet (h : Headers) (k : String) (v : String) : Headers :=
  (h.filter (fun p => !(p.1 == k))) ++ [(k, v)]

/-- Value of `localstack.constants.HEADER_LOCALSTACK_EDGE_URL` (constant
defined outside the excerpt; only its identity matters, since the same
constant is used at the write site in router_asf.py and the read site in
context.py). -/
def HEADER_LOCALSTACK_EDGE_URL : String := "x-localstack-edge"

/-- The raw inbound HTTP request (`localstack.http.Request`), restricted
to the fields the excerpt reads. -/
structure Request where
  method : String
  headers : Headers
  data : Payload
  query_string : String
  path : String
  remote_addr : String
  host : String
  host_url : String

/-! ## ApiInvocationContext (context.py) -/

/-- The `ApiGatewayVersion` enum. -/
inductive ApiGatewayVersion where
  | V1
  | V2
deriving DecidableEq

/-- The invocation context of context.py.  Fields follow `__init__`; the
trailing three underscore fields model the attributes that are only ever
assigned from outside the class (`_invocation_path` and `_method` by
router_asf.py / provider_asf.py, `_path_with_query_string` by
provider_asf.py); `none` models the attribute not having been assigned.
Note that `path_with_query_string` (assigned `None` in `__init__`) and
`_path_with_query_string` are two distinct Python attributes: the
property that bridged them is commented out in the source. -/
structure ApiInvocationContext where
  request : Request
  context : List (String × String)
  auth_info : List (String × PyVal)
  apigw_version : Option ApiGatewayVersion
  api_id : Option String
  stage : Option String
  region_name : Option String
  account_id : Option String
  integration : Option (List (String × PyVal))
  resource : Option (List (String × PyVal))
  resource_path : Option String
  path_with_query_string : Option String
  response_templates : List (String × PyVal)
  stage_variables : List (String × PyVal)
  path_params : List (String × String)
  route : Option (List (String × PyVal))
  ws_route : Option String
  _invocation_path : Option String
  _method : Option String
  _path_with_query_string : Option String

/-- Model of `ApiInvocationContext.__init__`.  `uid` stands for the value
produced by the external `short_uid()` call. -/
def ApiInvocationContext.init (uid : String) (request : Request)
    (api_id : Option String) (stage : Option String)
    (context : Option (List (String × String)))
    (auth_info : Option (List (String × PyVal))) : ApiInvocationContext :=
  { request := request
    context := context.getD [("requestId", uid)]
    auth_info := auth_info.getD []
    apigw_version := none
    api_id := api_id
    stage := stage
    region_name := none
    account_id := none
    integration := none
    resource := none
    resource_path := none
    path_with_query_string := none
    response_templates := []
    stage_variables := []
    path_params := []
    route := none
    ws_route := none
    _invocation_path := none
    _method := none
    _path_with_query_string := none }

/-- Model of `ApiInvocationContext.query_params`.  The source reads
`self.path_with_query_string.partition("?")[2]`; when the attribute still
holds its constructor default `None`, `None.partition` raises an
`AttributeError`, modelled as the `error` result. -/
def ApiInvocationContext.query_params (ctx : ApiInvocationContext) :
    Except String (List (String × String)) :=
  match ctx.path_with_query_string with
  | none => .error "AttributeError"
  | some s => .ok (parse_query_string (partitionAfter s "?"))

/-- Model of the `ApiInvocationContext.method` property: it returns the
raw request method unconditionally. -/
def ApiInvocationContext.method (ctx : ApiInvocationContext) : String :=
  ctx.request.method

/-- The stripping chain of `_extract_host_from_header`:
`host.split("://")[-1].split("/")[0].split(":")[0]`, dropping the scheme,
any trailing path and any port from a host value. -/
def stripHostStr (host : String) : String :=
  (pySplitOn ((pySplitOn ((pySplitOn host "://").getLastD "") "/").headD "") ":").headD ""

/-- Model of `ApiInvocationContext._extract_host_from_header`, applied to
a header map. -/
def extract_host_from_header (h : Headers) : String :=
  let edge := headerGet h HEADER_LOCALSTACK_EDGE_URL
  let host := if pyTruthyStr edge then edge.getD ""
              else (headerGet h "host").getD ""
  stripHostStr host

/-- Model of the `ApiInvocationContext.domain_name` property. -/
def ApiInvocationContext.domain_name (ctx : ApiInvocationContext) : String :=
  extract_host_from_header ctx.request.headers

/-- Mirrors the shared rendering expression of `is_data_base64_encoded`
and `data_as_string`:
`json.dumps(data) if isinstance(data, (dict, list)) else to_str(data)`.
`none` models the `UnicodeDecodeError` that `to_str` raises on
non-UTF-8 bytes. -/
def renderData : Payload → Option String
  | .dict d => some (Json.dumps (Json.obj d))
  | .list l => some (Json.dumps (Json.arr l))
  | .str s => some s
  | .bytes bs => utf8Decode bs

/-- The raw bytes of a payload, for the base64 fallback branch (only ever
reached when the payload is a byte body). -/
def payloadBytes : Payload → List Nat
  | .bytes bs => bs
  | _ => []

/-- Model of the `ApiInvocationContext.is_data_base64_encoded` property:
`True` exactly when rendering the body as text raises. -/
def ApiInvocationContext.is_data_base64_encoded (ctx : ApiInvocationContext) : Bool :=
  (renderData ctx.request.data).isNone

/-- Model of `ApiInvocationContext.data_as_string`: the rendered text, or
the base64 encoding of the raw bytes when rendering raises. -/
def ApiInvocationContext.data_as_string (ctx : ApiInvocationContext) : String :=
  match renderData ctx.request.data with
  | some s => s
  | none => base64Encode (payloadBytes ctx.request.data)

/-- Model of the `ApiInvocationContext.auth_context` property.  The
`isinstance` guard always holds here because the model types `auth_info`
as a dict.  Returns the (possibly newly created) `context` sub-value and
the updated context; the in-place mutations `setdefault` and
`context["principalId"] = principal` become explicit state passing.  An
`error` result models the `TypeError` Python would raise when assigning
into a non-dict `context` entry. -/
def ApiInvocationContext.auth_context (ctx : ApiInvocationContext) :
    Except String (PyVal × ApiInvocationContext) :=
  let a := ctx.auth_info
  let cPair :=
    match assocGet a "context" with
    | some x => (x, a)
    | none => (PyVal.obj [], assocSet a "context" (PyVal.obj []))
  let c := cPair.1
  let a1 := cPair.2
  match assocGet a1 "principalId" with
  | some principal =>
      if pyTruthyVal principal then
        match c with
        | PyVal.obj m =>
            let m2 := assocSet m "principalId" principal
            .ok (PyVal.obj m2, { ctx with auth_info := assocSet a1 "context" (PyVal.obj m2) })
        | PyVal.str _ => .error "TypeError"
      else .ok (c, { ctx with auth_info := a1 })
  | none => .ok (c, { ctx with auth_info := a1 })

/-! ## Router (router_asf.py) -/

/-- The URL parameters captured by the route matcher.  `to_invocation_context`
reads them with `dict.get`, so each field is optional;
`defaults={"stage": None}` also stores a `None` value, which `get` makes
indistinguishable from an absent key. -/
structure UrlParams where
  api_id : Option String
  stage : Option String
  path : Option String

/-- Empty parameter set (the `url_params = {}` default). -/
def UrlParams.empty : UrlParams :=
  { api_id := none, stage := none, path := none }

/-- Model of `to_invocation_context`.  The external collaborator
`get_api_region` (from apigateway helpers, outside the excerpt) is passed
as a function; `uid` stands for the `short_uid()` call inside the
constructor.  The in-place header mutations on the request become a new
request value carried by the returned context. -/
def to_invocation_context (get_api_region : Option String → Option String)
    (uid : String) (request : Request) (url_params : UrlParams) :
    ApiInvocationContext :=
  let xff := headerGetList request.headers "X-Forwarded-For"
    ++ [request.remote_addr, request.host]
  let h1 := headerSet request.headers "X-Forwarded-For" (String.intercalate ", " xff)
  let h2 := headerSet h1 HEADER_LOCALSTACK_EDGE_URL (stripSlashes request.host_url)
  let req2 := { request with headers := h2 }
  let ctx := ApiInvocationContext.init uid req2 url_params.api_id url_params.stage none none
  { ctx with
    _invocation_path := url_params.path
    region_name := get_api_region url_params.api_id }

/-- One registered route binding: path template, optional host template
and the defaults passed to `router.add` (a default of `None` is a stored
`None` value).  The endpoint is `invoke_rest_api` for every binding in
`register_routes`, so it is not part of the record. -/
structure Binding where
  path : String
  host : Option String
  defaults : List (String × Option String)
deriving DecidableEq

/-- The wildcard host template shared by the three host-based routes. -/
def hostTemplate : String := "<api_id>.execute-api.<regex(\x27.*\x27):server>"

/-- The five bindings added by `register_routes`, in registration
order. -/
def apigwRouteBindings : List Binding :=
  [ { path := "/", host := some hostTemplate,
      defaults := [("path", some ""), ("stage", none)] },
    { path := "/<stage>/", host := some hostTemplate,
      defaults := [("path", some "")] },
    { path := "/<stage>/<path:path>", host := some hostTemplate, defaults := [] },
    { path := "/restapis/<api_id>/<stage>/_user_request_", host := none,
      defaults := [("path", some "")] },
    { path := "/restapis/<api_id>/<stage>/_user_request_/<path:path>", host := none,
      defaults := [] } ]

/-- State of an `ApigatewayRouter`: the one-shot registration flag and
the bindings held by the wrapped `Router` collaborator (whose `add`
appends a binding). -/
structure ApigatewayRouter where
  registered : Bool
  routes : List Binding
deriving DecidableEq

/-- Model of `ApigatewayRouter.__init__` wrapping a router that already
holds `routes`. -/
def ApigatewayRouter.make (routes : List Binding) : ApigatewayRouter :=
  { registered := false, routes := routes }

/-- Model of `ApigatewayRouter.register_routes`: a silent no-op when the
one-shot flag is already set, otherwise set the flag and add the five
parameterized routes. -/
def ApigatewayRouter.register_routes (s : ApigatewayRouter) : ApigatewayRouter :=
  if s.registered then s
  else { registered := true, routes := s.routes ++ apigwRouteBindings }

/-- An HTTP response, restricted to the status the excerpt constructs and
compares. -/
structure Response where
  status : Nat
deriving DecidableEq

/-- Outcome of `ApigatewayRouter.invoke_rest_api`: a returned response,
the raised werkzeug `NotFound` (an HTTP 404 signal), or the `KeyError`
Python would raise on `url_params["api_id"]` when the key is absent. -/
inductive InvokeOutcome where
  | response (r : Response)
  | notFound
  | keyError
deriving DecidableEq

/-- Model of `ApigatewayRouter.invoke_rest_api`.  The external
collaborators `get_api_region` and `invoke_rest_api_from_request` are
passed as functions; `invoke` returning `none` models the Python function
returning `None`. -/
def ApigatewayRouter.invoke_rest_api
    (get_api_region : Option String → Option String)
    (invoke : ApiInvocationContext → Option Response)
    (uid : String) (request : Request) (url_params : UrlParams) : InvokeOutcome :=
  match url_params.api_id with
  | none => .keyError
  | some a =>
      if !(pyTruthyStr (get_api_region (some a))) then
        .response { status := 404 }
      else
        let ctx := to_invocation_context get_api_region uid request url_params
        match invoke ctx with
        | some r => .response r
        | none => .notFound

/-! ## Provider (provider_asf.py, test-invocation entry point) -/

/-- The `TestInvokeMethodRequest` fields the entry point reads with
`request.get(...)`. -/
structure TestInvokeMethodRequest where
  restApiId : Option String
  httpMethod : Option String

/-- Drop leading JSON whitespace. -/
def skipWs (l : List Char) : List Char :=
  l.dropWhile (fun c => c == ' ' || c == '\n' || c == '\t' || c == '\r')

/-- Parse a JSON string literal without escape sequences: `"abc"`. -/
def parseStringLit (l : List Char) : Option (String × List Char) :=
  match l with
  | '"' :: rest =>
      let content := rest.takeWhile (fun c => !(c == '"'))
      match rest.drop content.length with
      | '"' :: r => some (String.mk content, r)
      | _ => none
  | _ => none

/-- Parse the comma-separated `"key": "value"` pairs of a flat JSON
object body; `fuel` bounds the recursion by the input length. -/
def parsePairs (fuel : Nat) (l : List Char) (acc : List (String × String)) :
    Option (List (String × String) × List Char) :=
  match fuel with
  | 0 => none
  | fuel + 1 =>
      match parseStringLit (skipWs l) with
      | none => none
      | some (k, r1) =>
          match skipWs r1 with
          | ':' :: r2 =>
              match parseStringLit (skipWs r2) with
              | none => none
              | some (v, r3) =>
                  match skipWs r3 with
                  | ',' :: r4 => parsePairs fuel r4 (acc ++ [(k, v)])
                  | r5 => some (acc ++ [(k, v)], r5)
          | _ => none

/-- Modelled from the spec: `parse_json_or_yaml` from
`localstack.utils.json` (outside the excerpt), restricted to the flat
JSON objects of string fields that test-invocation payloads use.  A
malformed payload yields `none`, which the entry point treats as "no
override data" (spec section 7). -/
def parse_json_or_yaml (s : String) : Option (List (String × String)) :=
  match skipWs s.toList with
  | c :: rest =>
      if c == '\x7b' then
        match skipWs rest with
        | d :: r2 =>
            if d == '\x7d' then
              if skipWs r2 == [] then some [] else none
            else
              match parsePairs s.length (d :: r2) [] with
              | some (pairs, rem) =>
                  match skipWs rem with
                  | e :: r3 =>
                      if e == '\x7d' && skipWs r3 == [] then some pairs else none
                  | [] => none
              | none => none
        | [] => none
      else none
  | [] => none

/-- First value for a key in a flat string map. -/
def flatGet (m : List (String × String)) (k : String) : Option String :=
  match m with
  | [] => none
  | (k0, v0) :: t => if k0 = k then some v0 else flatGet t k

/-- Model of `to_str(context.request.data or b"")` as used by the
test-invocation entry point: the falsy (empty) bodies collapse to the
empty string, byte bodies are UTF-8 decoded (`none` models the raised
`UnicodeDecodeError`), and non-string payloads are outside the scope of
this call site. -/
def dataToStr : Payload → Option String
  | .str s => some s
  | .bytes bs => if bs.isEmpty then some "" else utf8Decode bs
  | .dict d => if d.isEmpty then some "" else none
  | .list l => if l.isEmpty then some "" else none

/-- Model of the context-construction prefix of
`AsfApigatewayProvider.test_invoke_method` (the part the claims are
about: everything before the call to `invoke_rest_api_from_request`).
Returns `none` when `to_str` raises on an undecodable body. -/
def test_invoke_method (get_api_region : Option String → Option String)
    (uid : String) (req : TestInvokeMethodRequest) (httpRequest : Request) :
    Option ApiInvocationContext :=
  let ctx0 := to_invocation_context get_api_region uid httpRequest UrlParams.empty
  let ctx1 := { ctx0 with api_id := req.restApiId, _method := req.httpMethod }
  match dataToStr httpRequest.data with
  | none => none
  | some body =>
      match parse_json_or_yaml body with
      | some data =>
          if data.isEmpty then some ctx1
          else
            match flatGet data "pathWithQueryString" with
            | some p =>
                if p == "" then some ctx1
                else some { ctx1 with
                  _path_with_query_string := some p
                  _invocation_path := some ((pySplitOn p "?").headD "") }
            | none => some ctx1
      | none => some ctx1

/-- Replace the auth info of a context (the explicit-state counterpart of
the in-place dictionary mutation performed by `auth_context`). -/
def withAuthInfo (ctx : ApiInvocationContext) (a : List (String × PyVal)) :
    ApiInvocationContext :=
  { ctx with auth_info := a }

/-! ## Concrete fixtures for witnesses and counterexamples -/

/-- A plain GET request with a Host header, used as base fixture. -/
def baseRequest : Request :=
  { method := "GET", headers := [("host", "foo.execute-api.example.com")],
    data := Payload.str "", query_string := "", path := "/",
    remote_addr := "127.0.0.1", host := "localhost:4566",
    host_url := "http://localhost:4566/" }

/-- Fresh context over `baseRequest` with the given body payload. -/
def ctxWithData (p : Payload) : ApiInvocationContext :=
  ApiInvocationContext.init "u0" { baseRequest with data := p } none none none none

/-- Context whose request carries query string `b=2` while the
`path_with_query_string` attribute has been overridden to `/p?a=1`. -/
def c1Ctx : ApiInvocationContext :=
  { ApiInvocationContext.init "u1" { baseRequest with query_string := "b=2" }
      none none none none with
    path_with_query_string := some "/p?a=1" }

/-- Context with no edge header and Host `foo.execute-api.example.com`. -/
def ctxHostFoo : ApiInvocationContext :=
  ApiInvocationContext.init "u2" baseRequest none none none none

/-- Context carrying both the internal edge-host header (set to
`http://bar.local/`) and a generic Host header. -/
def ctxEdgeBar : ApiInvocationContext :=
  ApiInvocationContext.init "u3"
    { baseRequest with headers :=
        [(HEADER_LOCALSTACK_EDGE_URL, "http://bar.local/"),
         ("host", "foo.execute-api.example.com")] }
    none none none none

/-- The JSON body of the example test invocation. -/
def tiBody : String :=
  "\x7b\"restApiId\": \"abc123\", \"httpMethod\": \"PUT\", \"pathWithQueryString\": \"/pets/1?x=1\"\x7d"

/-- The HTTP request carrying the test invocation (its own verb is POST,
distinct from the synthetic httpMethod in the body). -/
def tiHttpRequest : Request :=
  { method := "POST", headers := [("host", "localhost:4566")],
    data := Payload.str tiBody, query_string := "", path := "/",
    remote_addr := "127.0.0.1", host := "localhost:4566",
    host_url := "http://localhost:4566/" }

/-- Region lookup knowing only API `abc123`. -/
def lookupAbc : Option String → Option String :=
  fun o => if o == some "abc123" then some "us-east-1" else none

/-- Context produced by the test-invocation entry point on the example
payload. -/
def tiCtx : Option ApiInvocationContext :=
  test_invoke_method lookupAbc "req1"
    { restApiId := some "abc123", httpMethod := some "PUT" } tiHttpRequest

/-- Captured URL parameters for a dispatch attempt against API
`abc123`. -/
def p404 : UrlParams := { api_id := some "abc123", stage := none, path := some "" }

/-- Captured URL parameters with an empty captured path (the defaults of
the root routes). -/
def c6Params : UrlParams := { api_id := some "abc123", stage := none, path := some "" }

/-- Auth info whose `principalId` key holds the empty (falsy) string. -/
def c9AuthInfo : List (String × PyVal) := [("principalId", PyVal.str "")]

/-- Fresh context over `c9AuthInfo`. -/
def c9Ctx : ApiInvocationContext :=
  ApiInvocationContext.init "u4" baseRequest none none none (some c9AuthInfo)

/-- The state `c9Ctx` reaches after one read of `auth_context`. -/
def c9CtxAfter : ApiInvocationContext :=
  { c9Ctx with auth_info := [("principalId", PyVal.str ""), ("context", PyVal.obj [])] }

/-- Fresh context whose auth info has a truthy `principalId`. -/
def c9WitnessCtx : ApiInvocationContext :=
  ApiInvocationContext.init "u5" baseRequest none none none
    (some [("principalId", PyVal.str "alice")])

/-- Decidable equality for `Except`, used to evaluate the embedded
accessors on concrete inputs. -/
instance {ε α : Type} [DecidableEq ε] [DecidableEq α] : DecidableEq (Except ε α) := by
  intro a b
  cases a <;> cases b
  case error.error e1 e2 =>
    cases decEq e1 e2 with
    | isTrue h => exact isTrue (by rw [h])
    | isFalse h => exact isFalse (fun hc => h (by cases hc; rfl))
  case ok.ok v1 v2 =>
    cases decEq v1 v2 with
    | isTrue h => exact isTrue (by rw [h])
    | isFalse h => exact isFalse (fun hc => h (by cases hc; rfl))
  case error.ok e v => exact isFalse (fun hc => by cases hc)
  case ok.error v e => exact isFalse (fun hc => by cases hc)

theorem assocGet_set_eq (m : List (String × PyVal)) (k : String) (v : PyVal) :
    assocGet (assocSet m k v) k = some v := by
  induction m with
  | nil => simp [assocGet, assocSet]
  | cons h t ih =>
      obtain ⟨k0, v0⟩ := h
      by_cases hk : k0 = k <;> simp [assocGet, assocSet, hk, ih]

theorem assocGet_set_ne (m : List (String × PyVal)) (k k' : String) (v : PyVal)
    (h : k' ≠ k) : assocGet (assocSet m k v) k' = assocGet m k' := by
  induction m with
  | nil =>
      simp only [assocSet, assocGet]
      rw [if_neg (fun hc => h (Eq.symm hc))]
  | cons hd t ih =>
      obtain ⟨k0, v0⟩ := hd
      by_cases hk : k0 = k
      · subst hk
        simp only [assocSet, if_pos rfl, assocGet]
        rw [if_neg (fun hc => h (Eq.symm hc)), if_neg (fun hc => h (Eq.symm hc))]
      · simp only [assocSet, if_neg hk, assocGet]
        by_cases hk' : k0 = k'
        · rw [if_pos hk', if_pos hk']
        · rw [if_neg hk', if_neg hk', ih]

theorem assocSet_self (m : List (String × PyVal)) (k : String) (v : PyVal)
    (h : assocGet m k = some v) : assocSet m k v = m := by
  induction m with
  | nil => simp [assocGet] at h
  | cons hd t ih =>
      obtain ⟨k0, v0⟩ := hd
      by_cases hk : k0 = k
      · simp [assocGet, hk] at h
        simp [assocSet, hk, h]
      · simp [assocGet, hk] at h
        simp [assocSet, hk, ih h]

/-! ## Claims -/

/-- C10: on a freshly constructed invocation context, where the
`path_with_query_string` attribute still holds its constructor default of
`None`, calling `query_params` raises (`AttributeError` from
`None.partition`) rather than returning an empty mapping or the parsed
request query string. -/
theorem query_params_raises_on_fresh_context (uid : String) (req : Request)
    (api_id stage : Option String) (c : Option (List (String × String)))
    (ai : Option (List (String × PyVal))) :
    (ApiInvocationContext.init uid req api_id stage c ai).query_params
      = Except.error "AttributeError" := rfl

/-- C1 counterexample: with the actual request carrying query string
`b=2` and `path_with_query_string` overridden to `/p?a=1`, `query_params`
returns the parameters of the override, not those of the raw request, so
the claim that it parses the request query string is false. -/
theorem query_params_ignores_request_counterexample :
    c1Ctx.request.query_string = "b=2"
    ∧ c1Ctx.query_params = Except.ok [("a", "1")]
    ∧ c1Ctx.query_params ≠ Except.ok (parse_query_string c1Ctx.request.query_string) := by
  refine ⟨rfl, rfl, ?_⟩
  decide

/-- C1 amended: `query_params` parses the portion after the first `?` of
the `path_with_query_string` attribute, and its result depends only on
that attribute — in particular, after an override it reflects the
override, never the parameters of the actual incoming request. -/
theorem query_params_reads_path_with_query_string :
    (∀ (ctx : ApiInvocationContext) (s : String),
        ctx.path_with_query_string = some s →
        ctx.query_params = Except.ok (parse_query_string (partitionAfter s "?")))
    ∧ (∀ ctx1 ctx2 : ApiInvocationContext,
        ctx1.path_with_query_string = ctx2.path_with_query_string →
        ctx1.query_params = ctx2.query_params) := by
  constructor
  · intro ctx s h
    simp [ApiInvocationContext.query_params, h]
  · intro ctx1 ctx2 h
    simp [ApiInvocationContext.query_params, h]

/-- C1 witness: the amended statement evaluated on the concrete
overridden context. -/
theorem query_params_reads_path_with_query_string_witness :
    c1Ctx.query_params = Except.ok (parse_query_string (partitionAfter "/p?a=1" "?")) :=
  query_params_reads_path_with_query_string.1 c1Ctx "/p?a=1" rfl

/-- C2: the `method` property returns the raw request method
unconditionally; the `_method` attribute that the test-invocation entry
point assigns (here `PUT`, while the carrying request is a `POST`) is
never read, so the claimed override precedence does not hold in the
code. -/
theorem method_ignores_test_invocation_override :
    (∀ ctx : ApiInvocationContext, ApiInvocationContext.method ctx = ctx.request.method)
    ∧ tiCtx.map (fun c => c._method) = some (some "PUT")
    ∧ tiCtx.map ApiInvocationContext.method = some "POST" := by
  refine ⟨fun _ => rfl, ?_, rfl⟩
  decide

/-- C3: the test-invocation entry point stores the synthetic method and
the supplied path-with-query-string only into the write-only attributes
`_method`, `_invocation_path` and `_path_with_query_string`; the
attribute the accessors actually read (`path_with_query_string`) stays
`None`, the `method` accessor still returns the raw verb `POST`, and
`query_params` still raises. -/
theorem test_invoke_method_overrides_not_exposed :
    tiCtx.map (fun c => c._invocation_path) = some (some "/pets/1")
    ∧ tiCtx.map (fun c => c._path_with_query_string) = some (some "/pets/1?x=1")
    ∧ tiCtx.map (fun c => c._method) = some (some "PUT")
    ∧ tiCtx.map (fun c => c.path_with_query_string) = some none
    ∧ tiCtx.map ApiInvocationContext.method = some "POST"
    ∧ tiCtx.map ApiInvocationContext.query_params
        = some (Except.error "AttributeError") := by
  refine ⟨?_, ?_, ?_, ?_, rfl, ?_⟩ <;> decide

/-- C4: `data_as_string` and `is_data_base64_encoded` agree for every
body: a UTF-8-decodable byte body gives flag `false` and the decoded
text, a non-decodable byte body gives flag `true` and the base64
encoding of the raw bytes, and a JSON-encodable mapping or list gives
flag `false` and its JSON encoding. -/
theorem data_accessors_agree :
    (∀ (ctx : ApiInvocationContext) (bs : List Nat) (s : String),
        ctx.request.data = Payload.bytes bs → utf8Decode bs = some s →
        ctx.is_data_base64_encoded = false ∧ ctx.data_as_string = s)
    ∧ (∀ (ctx : ApiInvocationContext) (bs : List Nat),
        ctx.request.data = Payload.bytes bs → utf8Decode bs = none →
        ctx.is_data_base64_encoded = true ∧ ctx.data_as_string = base64Encode bs)
    ∧ (∀ (ctx : ApiInvocationContext) (d : List (String × Json)),
        ctx.request.data = Payload.dict d →
        ctx.is_data_base64_encoded = false
          ∧ ctx.data_as_string = Json.dumps (Json.obj d))
    ∧ (∀ (ctx : ApiInvocationContext) (l : List Json),
        ctx.request.data = Payload.list l →
        ctx.is_data_base64_encoded = false
          ∧ ctx.data_as_string = Json.dumps (Json.arr l)) := by
  refine ⟨?_, ?_, ?_, ?_⟩
  · intro ctx bs s h hd
    constructor <;>
      simp [ApiInvocationContext.is_data_base64_encoded,
        ApiInvocationContext.data_as_string, renderData, h, hd]
  · intro ctx bs h hd
    constructor <;>
      simp [ApiInvocationContext.is_data_base64_encoded,
        ApiInvocationContext.data_as_string, renderData, payloadBytes, h, hd]
  · intro ctx d h
    constructor <;>
      simp [ApiInvocationContext.is_data_base64_encoded,
        ApiInvocationContext.data_as_string, renderData, h]
  · intro ctx l h
    constructor <;>
      simp [ApiInvocationContext.is_data_base64_encoded,
        ApiInvocationContext.data_as_string, renderData, h]

/-- C4 witness: the agreement evaluated on a decodable body (`hi`) and a
non-decodable one (the lone byte 0xFF). -/
theorem data_accessors_agree_witness :
    ((ctxWithData (Payload.bytes [104, 105])).is_data_base64_encoded = false
      ∧ (ctxWithData (Payload.bytes [104, 105])).data_as_string = "hi")
    ∧ ((ctxWithData (Payload.bytes [255])).is_data_base64_encoded = true
      ∧ (ctxWithData (Payload.bytes [255])).data_as_string = base64Encode [255]) :=
  ⟨data_accessors_agree.1 (ctxWithData (Payload.bytes [104, 105])) [104, 105] "hi"
      rfl (by decide),
   data_accessors_agree.2.1 (ctxWithData (Payload.bytes [255])) [255]
      rfl (by decide)⟩

/-- C5: the dispatch handler returns HTTP 404 when the region lookup for
the captured api id yields nothing — and the outcome is then independent
of the integration collaborator, reflecting that no context is built —
while under a successful lookup it returns the collaborator response
unmodified when there is one and signals the NotFound (404) outcome when
the collaborator returns nothing.  The lookup collaborator is assumed to
return either absence or a nonempty region name, per its spec contract
(the code tests Python truthiness, which identifies the empty string
with absence). -/
theorem invoke_rest_api_dispatch
    (get_api_region : Option String → Option String)
    (invoke : ApiInvocationContext → Option Response)
    (uid : String) (request : Request) (p : UrlParams) (a : String)
    (hA : p.api_id = some a)
    (hwf : ∀ x r, get_api_region x = some r → r ≠ "") :
    (get_api_region (some a) = none →
      ApigatewayRouter.invoke_rest_api get_api_region invoke uid request p
          = InvokeOutcome.response { status := 404 }
      ∧ ∀ invoke2 : ApiInvocationContext → Option Response,
          ApigatewayRouter.invoke_rest_api get_api_region invoke2 uid request p
            = InvokeOutcome.response { status := 404 })
    ∧ (∀ r, get_api_region (some a) = some r →
      (∀ resp, invoke (to_invocation_context get_api_region uid request p) = some resp →
        ApigatewayRouter.invoke_rest_api get_api_region invoke uid request p
            = InvokeOutcome.response resp)
      ∧ (invoke (to_invocation_context get_api_region uid request p) = none →
        ApigatewayRouter.invoke_rest_api get_api_region invoke uid request p
            = InvokeOutcome.notFound)) := by
  constructor
  · intro h
    constructor
    · simp [ApigatewayRouter.invoke_rest_api, hA, h, pyTruthyStr]
    · intro invoke2
      simp [ApigatewayRouter.invoke_rest_api, hA, h, pyTruthyStr]
  · intro r h
    have hr : (r == "") = false := beq_eq_false_iff_ne.mpr (hwf (some a) r h)
    constructor
    · intro resp hresp
      simp [ApigatewayRouter.invoke_rest_api, hA, h, pyTruthyStr, hr, hresp]
    · intro hnone
      simp [ApigatewayRouter.invoke_rest_api, hA, h, pyTruthyStr, hr, hnone]

/-- C5 witness: dispatching against a region lookup that knows no API
returns the upfront 404. -/
theorem invoke_rest_api_dispatch_witness :
    ApigatewayRouter.invoke_rest_api (fun _ => none) (fun _ => none) "u0"
        baseRequest p404
      = InvokeOutcome.response { status := 404 } :=
  ((invoke_rest_api_dispatch (fun _ => none) (fun _ => none) "u0" baseRequest p404
      "abc123" rfl (fun _ _ h => Option.noConfusion h)).1 rfl).1

/-- C6 counterexample: with the empty captured path (the defaults of the
root routes) the builder stores the empty string — which does not start
with `/` — and with an absent captured path it stores `None`, so the
built invocation path is neither normalized to start with `/` nor
guaranteed nonempty. -/
theorem invocation_path_not_normalized_counterexample :
    (to_invocation_context (fun _ => some "us-east-1") "u0" baseRequest
        c6Params)._invocation_path = some ""
    ∧ pyStartsWith "" "/" = false
    ∧ (to_invocation_context (fun _ => some "us-east-1") "u0" baseRequest
        { api_id := some "abc123", stage := none, path := none })._invocation_path
      = none := ⟨rfl, rfl, rfl⟩

/-- C6 amended: the context builder stores the captured `path` variable
verbatim in `_invocation_path` (`None` when the variable is absent); no
normalization to a leading `/` takes place and the empty capture stays
the empty string. -/
theorem to_invocation_context_stores_path_verbatim
    (get_api_region : Option String → Option String) (uid : String)
    (request : Request) (p : UrlParams) :
    (to_invocation_context get_api_region uid request p)._invocation_path
      = p.path := rfl

/-- C7: `domain_name` prefers the internal edge-host header over the
generic Host header and strips scheme, trailing path and port: when the
edge header carries a (nonempty) value the result is that value stripped,
when it is absent or empty the result is the stripped Host header; in
particular with no edge header and Host `foo.execute-api.example.com` it
yields `foo.execute-api.example.com`, and with the edge header set to
`http://bar.local/` it yields `bar.local`. -/
theorem domain_name_prefers_edge_header :
    (∀ (ctx : ApiInvocationContext) (s : String),
        headerGet ctx.request.headers HEADER_LOCALSTACK_EDGE_URL = some s →
        s ≠ "" → ctx.domain_name = stripHostStr s)
    ∧ (∀ ctx : ApiInvocationContext,
        pyTruthyStr (headerGet ctx.request.headers HEADER_LOCALSTACK_EDGE_URL) = false →
        ctx.domain_name
          = stripHostStr ((headerGet ctx.request.headers "host").getD ""))
    ∧ ctxHostFoo.domain_name = "foo.execute-api.example.com"
    ∧ ctxEdgeBar.domain_name = "bar.local" := by
  refine ⟨?_, ?_, rfl, rfl⟩
  · intro ctx s h hs
    have hb : (s == "") = false := beq_eq_false_iff_ne.mpr hs
    simp [ApiInvocationContext.domain_name, extract_host_from_header, h,
      pyTruthyStr, hb]
  · intro ctx h
    simp only [ApiInvocationContext.domain_name, extract_host_from_header, h]
    simp

/-- C7 witness: the edge-header branch evaluated on the concrete context
whose edge header is `http://bar.local/`. -/
theorem domain_name_prefers_edge_header_witness :
    ctxEdgeBar.domain_name = stripHostStr "http://bar.local/" :=
  domain_name_prefers_edge_header.1 ctxEdgeBar "http://bar.local/" rfl
    (by decide)

/-- C8: `register_routes` is idempotent: a second call on any router
state is a silent no-op guarded by the one-shot `registered` flag, so
registering twice leaves exactly the bindings registering once leaves. -/
theorem register_routes_idempotent (s : ApigatewayRouter) :
    ApigatewayRouter.register_routes (ApigatewayRouter.register_routes s)
        = ApigatewayRouter.register_routes s
    ∧ (ApigatewayRouter.register_routes (ApigatewayRouter.register_routes s)).routes
        = (ApigatewayRouter.register_routes s).routes := by
  have h1 : ApigatewayRouter.register_routes (ApigatewayRouter.register_routes s)
      = ApigatewayRouter.register_routes s := by
    by_cases h : s.registered <;> simp [ApigatewayRouter.register_routes, h]
  exact ⟨h1, by rw [h1]⟩

/-- C9 counterexample: with `auth_info = a map holding principalId maps to the
empty string`, the key is present, yet a read of `auth_context` leaves the
created `context` sub-map empty — the walrus `if principal := ...` guard
tests truthiness, not presence, so a falsy principal id is not
mirrored. -/
theorem auth_context_falsy_principal_counterexample :
    assocGet c9Ctx.auth_info "principalId" = some (PyVal.str "")
    ∧ c9Ctx.auth_context = Except.ok (PyVal.obj [], c9CtxAfter)
    ∧ assocGet ([] : List (String × PyVal)) "principalId" = none :=
  ⟨rfl, rfl, rfl⟩

/-- C9 amended: whenever the stored `context` entry is absent or is a
dict, a read of `auth_context` succeeds, afterwards `auth_info` holds a
`context` sub-map, any present and truthy (nonempty) `principalId` is
mirrored into that sub-map, and a second read returns the same value and
leaves the state unchanged (reads are idempotent). -/
theorem auth_context_spec (ctx : ApiInvocationContext)
    (hwf : assocGet ctx.auth_info "context" = none
        ∨ ∃ m, assocGet ctx.auth_info "context" = some (PyVal.obj m)) :
    ∃ m1 ctx1, ctx.auth_context = Except.ok (PyVal.obj m1, ctx1)
      ∧ assocGet ctx1.auth_info "context" = some (PyVal.obj m1)
      ∧ (∀ pr, assocGet ctx.auth_info "principalId" = some pr →
            pyTruthyVal pr = true → assocGet m1 "principalId" = some pr)
      ∧ ctx1.auth_context = Except.ok (PyVal.obj m1, ctx1) := by
  have hne : ("principalId" : String) ≠ "context" := by decide
  rcases hwf with hctx | ⟨m, hctx⟩
  · -- no context entry yet: setdefault inserts an empty dict
    have hget : assocGet (assocSet ctx.auth_info "context" (PyVal.obj []))
        "principalId" = assocGet ctx.auth_info "principalId" :=
      assocGet_set_ne _ _ _ _ hne
    cases hp : assocGet ctx.auth_info "principalId" with
    | none =>
        refine ⟨[], withAuthInfo ctx (assocSet ctx.auth_info "context" (PyVal.obj [])),
          ?_, ?_, ?_, ?_⟩
        · simp [ApiInvocationContext.auth_context, withAuthInfo, hctx, hget, hp]
        · exact assocGet_set_eq _ _ _
        · intro pr hpr
          exact absurd hpr (by simp)
        · simp [ApiInvocationContext.auth_context, withAuthInfo, assocGet_set_eq,
            hget, hp]
    | some pr =>
        cases ht : pyTruthyVal pr with
        | false =>
            refine ⟨[], withAuthInfo ctx (assocSet ctx.auth_info "context" (PyVal.obj [])),
              ?_, ?_, ?_, ?_⟩
            · simp [ApiInvocationContext.auth_context, withAuthInfo, hctx, hget, hp, ht]
            · exact assocGet_set_eq _ _ _
            · intro pr' hpr' htr'
              cases hpr'
              rw [ht] at htr'
              exact absurd htr' (by simp)
            · simp [ApiInvocationContext.auth_context, withAuthInfo, assocGet_set_eq,
                hget, hp, ht]
        | true =>
            refine ⟨assocSet [] "principalId" pr,
              withAuthInfo ctx
                (assocSet (assocSet ctx.auth_info "context" (PyVal.obj []))
                  "context" (PyVal.obj (assocSet [] "principalId" pr))),
              ?_, ?_, ?_, ?_⟩
            · simp [ApiInvocationContext.auth_context, withAuthInfo, hctx, hget, hp, ht]
            · exact assocGet_set_eq _ _ _
            · intro pr' hpr' htr'
              cases hpr'
              exact assocGet_set_eq _ _ _
            · have hgetc : assocGet (assocSet (assocSet ctx.auth_info "context" (PyVal.obj []))
                  "context" (PyVal.obj (assocSet [] "principalId" pr))) "context"
                  = some (PyVal.obj (assocSet [] "principalId" pr)) :=
                assocGet_set_eq _ _ _
              have hgetp : assocGet (assocSet (assocSet ctx.auth_info "context" (PyVal.obj []))
                  "context" (PyVal.obj (assocSet [] "principalId" pr))) "principalId"
                  = some pr := by
                rw [assocGet_set_ne _ _ _ _ hne, hget, hp]
              have hm2 : assocSet (assocSet [] "principalId" pr) "principalId" pr
                  = assocSet [] "principalId" pr :=
                assocSet_self _ _ _ (assocGet_set_eq _ _ _)
              have hback : assocSet (assocSet (assocSet ctx.auth_info "context" (PyVal.obj []))
                  "context" (PyVal.obj (assocSet [] "principalId" pr)))
                  "context" (PyVal.obj (assocSet [] "principalId" pr))
                  = assocSet (assocSet ctx.auth_info "context" (PyVal.obj []))
                      "context" (PyVal.obj (assocSet [] "principalId" pr)) :=
                assocSet_self _ _ _ hgetc
              simp [ApiInvocationContext.auth_context, withAuthInfo, hgetc, hgetp,
                ht, hm2, hback]
  · -- an existing dict-valued context entry
    cases hp : assocGet ctx.auth_info "principalId" with
    | none =>
        refine ⟨m, ctx, ?_, ?_, ?_, ?_⟩
        · simp [ApiInvocationContext.auth_context, hctx, hp]
        · exact hctx
        · intro pr hpr
          exact absurd hpr (by simp)
        · simp [ApiInvocationContext.auth_context, hctx, hp]
    | some pr =>
        cases ht : pyTruthyVal pr with
        | false =>
            refine ⟨m, ctx, ?_, ?_, ?_, ?_⟩
            · simp [ApiInvocationContext.auth_context, hctx, hp, ht]
            · exact hctx
            · intro pr' hpr' htr'
              cases hpr'
              rw [ht] at htr'
              exact absurd htr' (by simp)
            · simp [ApiInvocationContext.auth_context, hctx, hp, ht]
        | true =>
            refine ⟨assocSet m "principalId" pr,
              withAuthInfo ctx
                (assocSet ctx.auth_info "context"
                  (PyVal.obj (assocSet m "principalId" pr))),
              ?_, ?_, ?_, ?_⟩
            · simp [ApiInvocationContext.auth_context, withAuthInfo, hctx, hp, ht]
            · exact assocGet_set_eq _ _ _
            · intro pr' hpr' htr'
              cases hpr'
              exact assocGet_set_eq _ _ _
            · have hgetc : assocGet (assocSet ctx.auth_info "context"
                  (PyVal.obj (assocSet m "principalId" pr))) "context"
                  = some (PyVal.obj (assocSet m "principalId" pr)) :=
                assocGet_set_eq _ _ _
              have hgetp : assocGet (assocSet ctx.auth_info "context"
                  (PyVal.obj (assocSet m "principalId" pr))) "principalId"
                  = some pr := by
                rw [assocGet_set_ne _ _ _ _ hne, hp]
              have hm2 : assocSet (assocSet m "principalId" pr) "principalId" pr
                  = assocSet m "principalId" pr :=
                assocSet_self _ _ _ (assocGet_set_eq _ _ _)
              have hback : assocSet (assocSet ctx.auth_info "context"
                  (PyVal.obj (assocSet m "principalId" pr)))
                  "context" (PyVal.obj (assocSet m "principalId" pr))
                  = assocSet ctx.auth_info "context"
                      (PyVal.obj (assocSet m "principalId" pr)) :=
                assocSet_self _ _ _ hgetc
              simp [ApiInvocationContext.auth_context, withAuthInfo, hgetc, hgetp,
                ht, hm2, hback]

/-- C9 witness: the amended statement evaluated on a context whose auth
info holds a truthy `principalId` and no `context` entry yet. -/
theorem auth_context_spec_witness :
    ∃ m1 ctx1, c9WitnessCtx.auth_context = Except.ok (PyVal.obj m1, ctx1)
      ∧ assocGet ctx1.auth_info "context" = some (PyVal.obj m1)
      ∧ (∀ pr, assocGet c9WitnessCtx.auth_info "principalId" = some pr →
            pyTruthyVal pr = true → assocGet m1 "principalId" = some pr)
      ∧ ctx1.auth_context = Except.ok (PyVal.obj m1, ctx1) :=
  auth_context_spec c9WitnessCtx (Or.inl rfl)
